import Mathlib

/-!
Verification of the rust-store-microservices repository: a shallow embedding of
the order, warehouse, warranty and store services together with proofs about the
purchase and return sagas, the per-peer health gate, the warehouse stock ledger,
the warranty verdict and the aggregated order view.

External effects (HTTP sends, JSON decoding, database operations, the AMQP
queue) are passed in as explicit outcome parameters, so every embedded function
is a pure function of its inputs and of those outcomes; the in-memory service
health registry is threaded through explicitly.
-/

set_option linter.unusedVariables false

deriving instance DecidableEq for Except

namespace StoreMS

/-- UUIDs are opaque identifiers; we model them as natural numbers. -/
abbrev Uuid := Nat

namespace OrderSvc

/-- model.rs DataError of the order service. -/
inductive DataError where
  | OrderNotFoundErr
  | UserNotFoundErr
  | OrderCreateErr
  | ItemIsNotAvailable
  | ItemNotFound
  | WarehouseServiceAccessErr
  | WarrantyServiceAccessErr
deriving DecidableEq, Repr

/-- model.rs ValidateError of the order service. -/
inductive ValidateError where
  | InvalidUidErr
deriving DecidableEq, Repr

/-- model.rs DaoError of the order service; the diesel error payload is opaque. -/
inductive DaoError where
  | DieselError (e : Nat)
  | DataError (e : DataError)
  | ValidateError (e : ValidateError)
  | AmpqError
deriving DecidableEq, Repr

/-- model.rs ServiceAccessError of the order service; the reqwest error payload
is opaque. -/
inductive ServiceAccessError where
  | ReqwestError (e : Nat)
  | DataError (e : DataError)
deriving DecidableEq, Repr

/-- One entry of the process-wide SERVICES_STATUS registry: the up flag and the
Instant of the last update, modelled as seconds. -/
structure Service where
  up : Bool
  updated : Nat
deriving DecidableEq, Repr

/-- The shared registry holding one Service entry per peer of the order service. -/
structure ServicesStatus where
  warehouse_service : Service
  warranty_service : Service
deriving DecidableEq, Repr

/-- Outcome of one reqwest send: none is a transport error (connect failure or
timeout), some code is a completed HTTP response with that status code. -/
abbrev Attempt := Option Nat

/-- Inputs consumed by one gateway call: the outcome the health probe would
have, the outcomes of the successive send attempts, and the current time. -/
structure GatewayEnv where
  probe : Option Nat
  attempts : List Attempt
  now : Nat
deriving DecidableEq, Repr

/-- gateway.rs get_service_status: issue GET {host}/manage/health and report
true exactly when the send call returns Ok, whatever the response status is. -/
def get_service_status (sendResult : Option Nat) : Bool :=
  match sendResult with
  | some _ => true
  | none => false

/-- Modelled from the spec: the Service trait implementation (change_status)
lives in the order-service main.rs, which is not among the provided sources;
section 4.3 of the spec says a successful probe sets up=true and updated=now. -/
def change_status (s : Service) (now : Nat) (b : Bool) : Service :=
  { s with up := b, updated := now }

/-- gateway.rs update_service_status: when the circuit is open and the cooldown
has elapsed, probe the health endpoint and close the circuit on probe success.
The Bool component records whether a probe was issued (a ghost observation). -/
def update_service_status (probe : Option Nat) (now cooldown : Nat) (s : Service) :
    Service × Bool :=
  if !s.up then
    if cooldown ≤ now - s.updated then
      if get_service_status probe then (change_status s now true, true)
      else (s, true)
    else (s, false)
  else (s, false)

/-- First completed response among the attempts actually made: the retry loop
in every request_ function stops at the first Ok send. -/
def first_response : List Attempt → Option Nat
  | [] => none
  | some code :: _ => some code
  | none :: rest => first_response rest

/-- Result of one gateway call: the typed result, the new health entry of the
peer, and ghost observations of whether a probe and a real request went out. -/
structure GatewayOutcome (β : Type) where
  res : Except ServiceAccessError β
  service : Service
  probed : Bool
  requested : Bool

/-- Common shape shared by every request_ function in the order-service
gateway.rs: refresh the health entry, short-circuit with the access error of
the peer when it is down, otherwise send up to calloutNumber attempts, open the
circuit (up=false, updated=now) when none completes, and classify the first
completed response by status code. -/
def gateway_call (calloutNumber cooldown : Nat) (accessErr : DataError)
    (classify : Nat → Except ServiceAccessError β)
    (env : GatewayEnv) (s : Service) : GatewayOutcome β :=
  let su := update_service_status env.probe env.now cooldown s
  if !su.1.up then
    { res := .error (.DataError accessErr), service := su.1,
      probed := su.2, requested := false }
  else
    match first_response (env.attempts.take calloutNumber) with
    | none =>
        { res := .error (.DataError accessErr),
          service := { up := false, updated := env.now },
          probed := su.2, requested := decide (0 < calloutNumber) }
    | some code =>
        { res := classify code, service := su.1,
          probed := su.2, requested := true }

/-- routes.rs CreateOrderRequestJson: the purchase request body, also the body
decoded from the warehouse item-info endpoint. -/
structure CreateOrderRequestJson where
  model : String
  size : String
deriving DecidableEq, Repr

/-- routes.rs WarehouseItemRequestJson: the body of the warehouse reserve POST. -/
structure WarehouseItemRequestJson where
  order_uid : Uuid
  model : String
  size : String
deriving DecidableEq, Repr

/-- routes.rs WarehouseItemResponseJson: the body decoded from the warehouse
reserve POST. -/
structure WarehouseItemResponseJson where
  order_item_uid : Uuid
  order_uid : Uuid
  model : String
  size : String
deriving DecidableEq, Repr

/-- Status-code classification of gateway.rs request_warehouse_service_item:
404 is ItemNotFound, 409 is ItemIsNotAvailable, any other non-200 is the
warehouse access error, and on 200 the body is decoded (a decode failure is a
reqwest error). -/
def classify_item (decode : Except Nat WarehouseItemResponseJson) (code : Nat) :
    Except ServiceAccessError WarehouseItemResponseJson :=
  if code = 404 then .error (.DataError .ItemNotFound)
  else if code = 409 then .error (.DataError .ItemIsNotAvailable)
  else if code ≠ 200 then .error (.DataError .WarehouseServiceAccessErr)
  else
    match decode with
    | .ok v => .ok v
    | .error e => .error (.ReqwestError e)

/-- gateway.rs request_warehouse_service_item (POST /api/v1/warehouse). -/
def request_warehouse_service_item (calloutNumber cooldown : Nat)
    (env : GatewayEnv) (decode : Except Nat WarehouseItemResponseJson)
    (req_json : WarehouseItemRequestJson) (s : Service) :
    GatewayOutcome WarehouseItemResponseJson :=
  gateway_call calloutNumber cooldown .WarehouseServiceAccessErr
    (classify_item decode) env s

/-- Status-code classification of gateway.rs request_warehouse_service_item_info:
404 is ItemNotFound, any other non-200 is the warehouse access error, and on
200 the body is decoded. -/
def classify_item_info (decode : Except Nat CreateOrderRequestJson) (code : Nat) :
    Except ServiceAccessError CreateOrderRequestJson :=
  if code = 404 then .error (.DataError .ItemNotFound)
  else if code ≠ 200 then .error (.DataError .WarehouseServiceAccessErr)
  else
    match decode with
    | .ok v => .ok v
    | .error e => .error (.ReqwestError e)

/-- gateway.rs request_warehouse_service_item_info (GET /api/v1/warehouse/uid). -/
def request_warehouse_service_item_info (calloutNumber cooldown : Nat)
    (env : GatewayEnv) (decode : Except Nat CreateOrderRequestJson)
    (item_uid : Uuid) (s : Service) : GatewayOutcome CreateOrderRequestJson :=
  gateway_call calloutNumber cooldown .WarehouseServiceAccessErr
    (classify_item_info decode) env s

/-- Status-code classification of gateway.rs request_warehouse_service_return:
anything but 204 is the warehouse access error. -/
def classify_return (code : Nat) : Except ServiceAccessError Unit :=
  if code = 204 then .ok () else .error (.DataError .WarehouseServiceAccessErr)

/-- gateway.rs request_warehouse_service_return (DELETE /api/v1/warehouse/uid). -/
def request_warehouse_service_return (calloutNumber cooldown : Nat)
    (env : GatewayEnv) (item_uid : Uuid) (s : Service) : GatewayOutcome Unit :=
  gateway_call calloutNumber cooldown .WarehouseServiceAccessErr
    classify_return env s

/-- Status-code classification of gateway.rs request_warranty_service_start:
anything but 204 is the warranty access error. -/
def classify_warranty_start (code : Nat) : Except ServiceAccessError Unit :=
  if code = 204 then .ok () else .error (.DataError .WarrantyServiceAccessErr)

/-- gateway.rs request_warranty_service_start (POST /api/v1/warranty/uid). -/
def request_warranty_service_start (calloutNumber cooldown : Nat)
    (env : GatewayEnv) (item_uid : Uuid) (s : Service) : GatewayOutcome Unit :=
  gateway_call calloutNumber cooldown .WarrantyServiceAccessErr
    classify_warranty_start env s

/-- Status-code classification of gateway.rs request_warranty_service_stop:
anything but 204 is the warranty access error. -/
def classify_warranty_stop (code : Nat) : Except ServiceAccessError Unit :=
  if code = 204 then .ok () else .error (.DataError .WarrantyServiceAccessErr)

/-- gateway.rs request_warranty_service_stop (DELETE /api/v1/warranty/uid). -/
def request_warranty_service_stop (calloutNumber cooldown : Nat)
    (env : GatewayEnv) (item_uid : Uuid) (s : Service) : GatewayOutcome Unit :=
  gateway_call calloutNumber cooldown .WarrantyServiceAccessErr
    classify_warranty_stop env s

/-- model.rs Order row of the order service; the chrono date is opaque. -/
structure Order where
  id : Int
  item_uid : Uuid
  order_date : Nat
  order_uid : Uuid
  status : String
  user_uid : Uuid
deriving DecidableEq, Repr

/-- Error mapping used at every warehouse call site in model.rs: a typed data
error passes through, anything else becomes the warehouse access error. The
same closure text also appears on the warranty stop call in return_order. -/
def map_warehouse_err : ServiceAccessError → DaoError
  | .DataError de => .DataError de
  | _ => .DataError .WarehouseServiceAccessErr

/-- Error mapping used in model.rs create_order on the warranty start call and,
with the same text, on the compensating warehouse return call: a typed data
error passes through, anything else becomes the warranty access error. -/
def map_warranty_err : ServiceAccessError → DaoError
  | .DataError de => .DataError de
  | _ => .DataError .WarrantyServiceAccessErr

/-- Outcomes of the AMQP interactions available to create_order when a durable
queue connection is configured. -/
structure QueueEnv where
  polling_thread_running : Bool
  create_consumer_ok : Bool
  open_channel_ok : Bool
  queue_declare_ok : Bool
  publish_ok : Bool
deriving DecidableEq, Repr

/-- Result of the purchase saga: the value returned to the handler, the new
health registry, and ghost observations of whether the compensating warehouse
release was attempted and whether the item uid was enqueued. -/
structure CreateOrderOutcome where
  res : Except DaoError Uuid
  st : ServicesStatus
  compensation_attempted : Bool
  enqueued : Bool
deriving DecidableEq, Repr

/-- model.rs create_order, the purchase saga: reserve stock at the warehouse,
enrol the item uid in warranty, and on enrolment failure either publish the uid
to the durable queue (when one is configured) or compensate by releasing the
stock and surfacing an error; finally insert the PAID order row. order_uid is
the freshly generated uuid, now the creation timestamp, and the gateway
environments give the outcomes of the three possible outbound calls; insertRes
is the outcome of dbops.insert_order. -/
def create_order (calloutNumber cooldown : Nat) (order_uid : Uuid) (now : Nat)
    (user_uid : Uuid) (body : CreateOrderRequestJson)
    (reserveEnv : GatewayEnv) (reserveDecode : Except Nat WarehouseItemResponseJson)
    (warrantyEnv : GatewayEnv)
    (queue_conn : Option QueueEnv)
    (compEnv : GatewayEnv)
    (insertRes : Except Nat (List Order))
    (st : ServicesStatus) : CreateOrderOutcome :=
  let req_json : WarehouseItemRequestJson :=
    { order_uid := order_uid, model := body.model, size := body.size }
  let g1 := request_warehouse_service_item calloutNumber cooldown reserveEnv
    reserveDecode req_json st.warehouse_service
  let st1 : ServicesStatus := { st with warehouse_service := g1.service }
  match g1.res with
  | .error e =>
      { res := .error (map_warehouse_err e), st := st1,
        compensation_attempted := false, enqueued := false }
  | .ok response =>
    let order : Order :=
      { id := 0, item_uid := response.order_item_uid, order_date := now,
        order_uid := order_uid, status := "PAID", user_uid := user_uid }
    let g2 := request_warranty_service_start calloutNumber cooldown warrantyEnv
      order.item_uid st1.warranty_service
    let st2 : ServicesStatus := { st1 with warranty_service := g2.service }
    let insert_step : ServicesStatus → Bool → Bool → CreateOrderOutcome :=
      fun stf comp enq =>
        match insertRes with
        | .error e =>
            { res := .error (.DieselError e), st := stf,
              compensation_attempted := comp, enqueued := enq }
        | .ok vec =>
            match vec.getLast? with
            | none =>
                { res := .error (.DataError .OrderCreateErr), st := stf,
                  compensation_attempted := comp, enqueued := enq }
            | some _ =>
                { res := .ok order_uid, st := stf,
                  compensation_attempted := comp, enqueued := enq }
    match g2.res with
    | .error e2 =>
      let werr := map_warranty_err e2
      match queue_conn with
      | some q =>
        if !q.polling_thread_running && !q.create_consumer_ok then
          { res := .error .AmpqError, st := st2,
            compensation_attempted := false, enqueued := false }
        else if !q.open_channel_ok then
          { res := .error .AmpqError, st := st2,
            compensation_attempted := false, enqueued := false }
        else if !q.queue_declare_ok then
          { res := .error .AmpqError, st := st2,
            compensation_attempted := false, enqueued := false }
        else if !q.publish_ok then
          { res := .error .AmpqError, st := st2,
            compensation_attempted := false, enqueued := false }
        else
          insert_step st2 false true
      | none =>
        let g3 := request_warehouse_service_return calloutNumber cooldown compEnv
          order.item_uid st2.warehouse_service
        let st3 : ServicesStatus := { st2 with warehouse_service := g3.service }
        match g3.res with
        | .error e3 =>
            { res := .error (map_warranty_err e3), st := st3,
              compensation_attempted := true, enqueued := false }
        | .ok _ =>
            { res := .error werr, st := st3,
              compensation_attempted := true, enqueued := false }
    | .ok _ => insert_step st2 false false

/-- Result of the return saga: the value returned to the handler, the new
health registry, the request body of the compensating re-reserve when one was
built (a ghost observation), and whether the CANCELED status update was
reached. -/
structure ReturnOrderOutcome where
  res : Except DaoError Unit
  st : ServicesStatus
  compensation_req : Option WarehouseItemRequestJson
  update_attempted : Bool
deriving DecidableEq, Repr

/-- model.rs return_order, the return saga: load the order, release the stock
at the warehouse, close the warranty, and on a warranty-close failure
compensate by fetching the item info and re-reserving under the same order_uid
before surfacing an error; on full success update the order status to
CANCELED. loadRes is the outcome of dbops.load_by_order_id and updateRes the
outcome of dbops.update_order_status. -/
def return_order (calloutNumber cooldown : Nat)
    (loadRes : Except Nat (List Order))
    (releaseEnv stopEnv itemInfoEnv reserveEnv : GatewayEnv)
    (itemInfoDecode : Except Nat CreateOrderRequestJson)
    (reserveDecode : Except Nat WarehouseItemResponseJson)
    (updateRes : Except Nat Order)
    (order_uid : Uuid) (st : ServicesStatus) : ReturnOrderOutcome :=
  match loadRes with
  | .error e =>
      { res := .error (.DieselError e), st := st,
        compensation_req := none, update_attempted := false }
  | .ok vec =>
    match vec.getLast? with
    | none =>
        { res := .error (.DataError .OrderNotFoundErr), st := st,
          compensation_req := none, update_attempted := false }
    | some order =>
      let item_uid := order.item_uid
      let g1 := request_warehouse_service_return calloutNumber cooldown
        releaseEnv item_uid st.warehouse_service
      let st1 : ServicesStatus := { st with warehouse_service := g1.service }
      match g1.res with
      | .error e =>
          { res := .error (map_warehouse_err e), st := st1,
            compensation_req := none, update_attempted := false }
      | .ok _ =>
        let g2 := request_warranty_service_stop calloutNumber cooldown
          stopEnv item_uid st1.warranty_service
        let st2 : ServicesStatus := { st1 with warranty_service := g2.service }
        match g2.res with
        | .error e2 =>
          let werr := map_warehouse_err e2
          let g3 := request_warehouse_service_item_info calloutNumber cooldown
            itemInfoEnv itemInfoDecode item_uid st2.warehouse_service
          let st3 : ServicesStatus := { st2 with warehouse_service := g3.service }
          match g3.res with
          | .error e3 =>
              { res := .error (map_warehouse_err e3), st := st3,
                compensation_req := none, update_attempted := false }
          | .ok item_info =>
            let req_json : WarehouseItemRequestJson :=
              { order_uid := order_uid, model := item_info.model,
                size := item_info.size }
            let g4 := request_warehouse_service_item calloutNumber cooldown
              reserveEnv reserveDecode req_json st3.warehouse_service
            let st4 : ServicesStatus := { st3 with warehouse_service := g4.service }
            match g4.res with
            | .error e4 =>
                { res := .error (map_warehouse_err e4), st := st4,
                  compensation_req := some req_json, update_attempted := false }
            | .ok _ =>
                { res := .error werr, st := st4,
                  compensation_req := some req_json, update_attempted := false }
        | .ok _ =>
          match updateRes with
          | .error e =>
              { res := .error (.DieselError e), st := st2,
                compensation_req := none, update_attempted := true }
          | .ok _ =>
              { res := .ok (), st := st2,
                compensation_req := none, update_attempted := true }

/-- routes.rs, the closure inside return_order_handler that maps a saga error
to a response status; in the source the response is built inside a map_err
closure whose return statement only leaves the closure. -/
def return_order_err_status : DaoError → Nat
  | .DataError .OrderNotFoundErr => 404
  | .DataError .WarrantyServiceAccessErr => 422
  | .DataError .WarehouseServiceAccessErr => 422
  | _ => 400

/-- routes.rs return_order_handler (DELETE /api/v1/orders/order_uid), returning
the HTTP status: 503 when the database guard failed, 400 on an invalid uuid,
422 when a host variable is missing; afterwards the saga runs, but its mapped
result is bound to a discarded value, so the handler falls through to 204. -/
def return_order_handler (conn_ok order_uid_valid : Bool)
    (warehouse_host_ok warranty_host_ok : Bool)
    (saga : Except DaoError Unit) : Nat :=
  if !conn_ok then 503
  else if !order_uid_valid then 400
  else if !warehouse_host_ok then 422
  else if !warranty_host_ok then 422
  else
    let _ := saga.mapError return_order_err_status
    204

/-- routes.rs get_all_user_orders_handler (GET /api/v1/orders/user_uid): the
result of get_user_orders is passed through map_err building a 400 response,
and then unwrapped; unwrapping the Err variant panics, modelled as none. -/
def get_all_user_orders_handler (conn_ok user_uid_valid : Bool)
    (ordersRes : Except DaoError (List Order)) : Option Nat :=
  if !conn_ok then some 503
  else if !user_uid_valid then some 400
  else
    let orders := ordersRes.mapError (fun _ => 400)
    match orders with
    | .error _ => none
    | .ok _ => some 200

end OrderSvc

namespace WarehouseSvc

/-- model.rs DataError of the warehouse service. -/
inductive DataError where
  | OrderNotFoundErr
  | ItemNotFoundErr
  | ItemIsNotAvailableErr
  | OrderCreateErr
  | WarrantyServiceAccessErr
  | WarrantyServiceItemNotFoundErr
deriving DecidableEq, Repr

/-- model.rs DaoError of the warehouse service; the diesel error payload is
opaque and the validation variant carries no information we need. -/
inductive DaoError where
  | DieselError (e : Nat)
  | DataError (e : DataError)
  | ValidateErrorCase
deriving DecidableEq, Repr

/-- model.rs Item row: stock entry of the warehouse, with an i32 count. -/
structure Item where
  id : Int
  available_count : Int
  model : String
  size : String
deriving DecidableEq, Repr

/-- model.rs OrderItem row: one reservation instance of the warehouse. -/
structure OrderItem where
  id : Int
  canceled : Option Bool
  order_item_uid : Uuid
  order_uid : Uuid
  item_id : Option Int
deriving DecidableEq, Repr

/-- The warehouse database: the items and order_items tables as row lists. -/
structure WarehouseDb where
  items : List Item
  order_items : List OrderItem
deriving DecidableEq, Repr

/-- db.rs load_item: rows of items filtered by model and then by size. -/
def load_item (model size : String) (db : WarehouseDb) : List Item :=
  (db.items.filter (fun i => i.model == model)).filter (fun i => i.size == size)

/-- db.rs load_item_id: rows of items filtered by id. -/
def load_item_id (id : Int) (db : WarehouseDb) : List Item :=
  db.items.filter (fun i => i.id == id)

/-- db.rs update_item: replace every items row whose id matches. -/
def update_item (item : Item) (db : WarehouseDb) : WarehouseDb :=
  { db with items := db.items.map (fun i => if i.id == item.id then item else i) }

/-- db.rs load_order_uid: rows of order_items filtered by order_uid. -/
def load_order_uid (order_uid : Uuid) (db : WarehouseDb) : List OrderItem :=
  db.order_items.filter (fun o => o.order_uid == order_uid)

/-- db.rs load_order_item_uid: rows of order_items filtered by order_item_uid. -/
def load_order_item_uid (item_uid : Uuid) (db : WarehouseDb) : List OrderItem :=
  db.order_items.filter (fun o => o.order_item_uid == item_uid)

/-- db.rs update_order_status: set the canceled flag on every order_items row
whose order_uid matches. -/
def update_order_status (order_uid : Uuid) (canceled : Bool) (db : WarehouseDb) :
    WarehouseDb :=
  { db with order_items :=
      db.order_items.map (fun o =>
        if o.order_uid == order_uid then { o with canceled := some canceled } else o) }

/-- db.rs insert_order: append the row and return the inserted rows. -/
def insert_order (row : OrderItem) (db : WarehouseDb) : WarehouseDb × List OrderItem :=
  ({ db with order_items := db.order_items ++ [row] }, [row])

/-- model.rs Item::decrement_count: fail with ItemIsNotAvailableErr when the
count is not positive, otherwise decrement it by one. -/
def decrement_count (it : Item) : Except DaoError Item :=
  if it.available_count ≤ 0 then .error (.DataError .ItemIsNotAvailableErr)
  else .ok { it with available_count := it.available_count - 1 }

/-- model.rs Item::increment_count. -/
def increment_count (it : Item) : Item :=
  { it with available_count := it.available_count + 1 }

/-- model.rs create_order of the warehouse service (the reserve operation):
load the item by model and size, decrement its count, and either reactivate the
existing order_items row of order_uid or insert a fresh one carrying fresh_uid.
Returns the row answered to the caller and the new database. -/
def create_order (db : WarehouseDb) (fresh_uid : Uuid) (order_uid : Uuid)
    (model size : String) : Except DaoError (OrderItem × WarehouseDb) :=
  match (load_item model size db).getLast? with
  | none => .error (.DataError .ItemNotFoundErr)
  | some item =>
    match decrement_count item with
    | .error e => .error e
    | .ok item1 =>
      let db1 := update_item item1 db
      let vec := load_order_uid order_uid db1
      if !vec.isEmpty then
        let db2 := update_order_status order_uid false db1
        match vec.getLast? with
        | none => .error (.DataError .OrderCreateErr)
        | some row => .ok (row, db2)
      else
        let item_uid := fresh_uid
        let row : OrderItem :=
          { id := 0, canceled := some false, order_item_uid := item_uid,
            order_uid := order_uid, item_id := some item1.id }
        let inserted := insert_order row db1
        match inserted.2.getLast? with
        | none => .error (.DataError .OrderCreateErr)
        | some r => .ok (r, inserted.1)

/-- model.rs cancel_order of the warehouse service (the release operation):
load the order_items row by order_item_uid, set its canceled flag, and
increment the count of the referenced item. The outer none models the panic of
order.item_id.unwrap() on a row without an item reference. -/
def cancel_order (db : WarehouseDb) (item_uid : Uuid) :
    Option (Except DaoError WarehouseDb) :=
  match (load_order_item_uid item_uid db).getLast? with
  | none => some (.error (.DataError .OrderNotFoundErr))
  | some order =>
    let db1 := update_order_status order.order_uid true db
    match order.item_id with
    | none => none
    | some iid =>
      match (load_item_id iid db1).getLast? with
      | none => some (.error (.DataError .ItemNotFoundErr))
      | some item =>
        let item1 := increment_count item
        some (.ok (update_item item1 db1))

/-- N successive reserves with the same order_uid, the k-th insert (if any)
drawing its fresh order_item_uid from fresh k; steps run in ascending order. -/
def iterate_reserve (order_uid : Uuid) (model size : String) (fresh : Nat → Uuid) :
    Nat → WarehouseDb → Except DaoError WarehouseDb
  | 0, db => .ok db
  | Nat.succ n, db =>
    match iterate_reserve order_uid model size fresh n db with
    | .error e => .error e
    | .ok dbn =>
      match create_order dbn (fresh n) order_uid model size with
      | .error e => .error e
      | .ok r => .ok r.2

end WarehouseSvc

namespace WarrantySvc

/-- model.rs DataError of the warranty service. -/
inductive DataError where
  | NotFoundErr
  | InsertErr
  | DeleteErr
deriving DecidableEq, Repr

/-- model.rs DaoError of the warranty service. -/
inductive DaoError where
  | DieselError (e : Nat)
  | DataError (e : DataError)
  | ValidateErrorCase
deriving DecidableEq, Repr

/-- model.rs Warranty row; the chrono date is opaque. -/
structure Warranty where
  id : Int
  comment : Option String
  item_uid : Uuid
  status : String
  warranty_date : Nat
deriving DecidableEq, Repr

/-- model.rs WarrantyVerdict: the row together with the computed verdict. -/
structure WarrantyVerdict where
  obj : Warranty
  verdict : Option String
deriving DecidableEq, Repr

/-- db.rs load_id of the warranty service: rows filtered by item_uid. -/
def load_id (uid : Uuid) (db : List Warranty) : List Warranty :=
  db.filter (fun w => w.item_uid == uid)

/-- model.rs get_warranty_verdict: pop the warranty row of uid (NotFoundErr
when there is none), then REFUSED when the status is not ON_WARRANTY, RETURN
when the available count is positive, FIXING otherwise. -/
def get_warranty_verdict (db : List Warranty) (uid : Uuid) (item_num : Int) :
    Except DaoError WarrantyVerdict :=
  match (load_id uid db).getLast? with
  | none => .error (.DataError .NotFoundErr)
  | some v =>
    if v.status ≠ "ON_WARRANTY" then .ok { obj := v, verdict := some "REFUSED" }
    else if item_num > 0 then .ok { obj := v, verdict := some "RETURN" }
    else .ok { obj := v, verdict := some "FIXING" }

end WarrantySvc

namespace StoreSvc

/-- model.rs DataError of the store service. -/
inductive DataError where
  | OrderNotFoundErr
  | UserNotFoundErr
  | WarrantyNotFoundErr
  | OrderCreateErr
  | ItemIsNotAvailable
  | ItemNotFound
  | OrderServiceAccessErr
  | WarehouseServiceAccessErr
  | WarrantyServiceAccessErr
deriving DecidableEq, Repr

/-- model.rs DaoError of the store service. -/
inductive DaoError where
  | DieselError (e : Nat)
  | DataError (e : DataError)
  | ValidateErrorCase
deriving DecidableEq, Repr

/-- model.rs ServiceAccessError of the store service. -/
inductive ServiceAccessError where
  | ReqwestError (e : Nat)
  | DataError (e : DataError)
deriving DecidableEq, Repr

/-- model.rs User row of the store service. -/
structure User where
  id : Int
  name : String
  user_uid : Uuid
deriving DecidableEq, Repr

/-- routes.rs ItemJson: model and size of an item. -/
structure ItemJson where
  model : String
  size : String
deriving DecidableEq, Repr

/-- routes.rs WarrantyStatusResponseJson decoded from the warranty service. -/
structure WarrantyStatusResponseJson where
  item_uid : Uuid
  warranty_date : String
  status : String
deriving DecidableEq, Repr

/-- routes.rs OrderInfoResponseJson decoded from the order service. -/
structure OrderInfoResponseJson where
  order_uid : Uuid
  order_date : String
  item_uid : Uuid
  status : String
deriving DecidableEq, Repr

/-- routes.rs SolidOrderInfo: the aggregated order record with the optional
warehouse and warranty fields. -/
structure SolidOrderInfo where
  order_uid : Uuid
  date : String
  model : Option String
  size : Option String
  warranty_date : Option String
  warranty_status : Option String
deriving DecidableEq, Repr

/-- Error mapping used in model.rs of the store on warehouse calls. -/
def map_warehouse_err : ServiceAccessError → DaoError
  | .DataError de => .DataError de
  | _ => .DataError .WarehouseServiceAccessErr

/-- Error mapping used in model.rs of the store on warranty calls. -/
def map_warranty_err : ServiceAccessError → DaoError
  | .DataError de => .DataError de
  | _ => .DataError .WarrantyServiceAccessErr

/-- Error mapping used in model.rs of the store on order-service calls. -/
def map_order_err : ServiceAccessError → DaoError
  | .DataError de => .DataError de
  | _ => .DataError .OrderServiceAccessErr

/-- db.rs load_user_by_id of the store service. -/
def load_user_by_id (users : List User) (user_uid : Uuid) : List User :=
  users.filter (fun u => u.user_uid == user_uid)

/-- model.rs verify_user: pop the user row, UserNotFoundErr when missing. -/
def verify_user (users : List User) (user_uid : Uuid) : Except DaoError User :=
  match (load_user_by_id users user_uid).getLast? with
  | none => .error (.DataError .UserNotFoundErr)
  | some u => .ok u

/-- model.rs get_solid_info: build the aggregated record for one order. Both
dependency reads are mapped, then demoted to Options with ok(), so a failing
read leaves the corresponding fields unset and the function always succeeds. -/
def get_solid_info (order : OrderInfoResponseJson)
    (itemInfoRes : Except ServiceAccessError ItemJson)
    (warrantyRes : Except ServiceAccessError WarrantyStatusResponseJson) :
    Except DaoError SolidOrderInfo :=
  let base : SolidOrderInfo :=
    { order_uid := order.order_uid, date := order.order_date,
      model := none, size := none, warranty_date := none, warranty_status := none }
  let item_info := (itemInfoRes.mapError map_warehouse_err).toOption
  let s1 :=
    match item_info with
    | some v => { base with model := some v.model, size := some v.size }
    | none => base
  let warranty_info := (warrantyRes.mapError map_warranty_err).toOption
  let s2 :=
    match warranty_info with
    | some v => { s1 with warranty_date := some v.warranty_date,
                          warranty_status := some v.status }
    | none => s1
  .ok s2

/-- The loop body of model.rs get_orders_info: build the aggregated record of
every order in turn, stopping at the first failure. -/
def solid_infos (itemInfoOf : Uuid → Except ServiceAccessError ItemJson)
    (warrantyOf : Uuid → Except ServiceAccessError WarrantyStatusResponseJson) :
    List OrderInfoResponseJson → Except DaoError (List SolidOrderInfo)
  | [] => .ok []
  | o :: rest =>
    match get_solid_info o (itemInfoOf o.item_uid) (warrantyOf o.item_uid) with
    | .error e => .error e
    | .ok s =>
      match solid_infos itemInfoOf warrantyOf rest with
      | .error e => .error e
      | .ok ss => .ok (s :: ss)

/-- model.rs get_orders_info: verify the user, fetch the orders of the user
from the order service (a failure there fails the whole request), and then
aggregate every order. ordersRes is the outcome of the store-to-order call and
the two functions give the per-item outcomes of the dependency reads. -/
def get_orders_info (users : List User) (user_uid : Uuid)
    (ordersRes : Except ServiceAccessError (List OrderInfoResponseJson))
    (itemInfoOf : Uuid → Except ServiceAccessError ItemJson)
    (warrantyOf : Uuid → Except ServiceAccessError WarrantyStatusResponseJson) :
    Except DaoError (List SolidOrderInfo) :=
  match verify_user users user_uid with
  | .error e => .error e
  | .ok _ =>
    match ordersRes with
    | .error e => .error (map_order_err e)
    | .ok orders => solid_infos itemInfoOf warrantyOf orders

end StoreSvc

/-! Theorems settling the claims. -/

namespace OrderSvc

/-- Claim C9: for some input the GET /api/v1/orders/user_uid handler panics
instead of returning an error response: when get_user_orders reports a database
error, the 400 response built in the map_err closure is discarded and unwrap is
called on the Err result, modelled here as the none outcome. -/
theorem get_all_user_orders_handler_panics :
    get_all_user_orders_handler true true (.error (.DieselError 0)) = none := rfl

/-- Claim C2 (code bug): with a working database connection, a valid uuid and
both peer hosts configured, return_order_handler answers 204 whatever the
outcome of the return saga is, because the 404 and 422 responses are built
inside a map_err closure whose result is bound to a discarded value; in
particular an OrderNotFoundErr and a dependency access error are both answered
with 204, contradicting the claimed 204 | 404 | 422 behavior. -/
theorem return_order_handler_always_no_content_bug :
    return_order_handler true true true true
      (.error (.DataError .OrderNotFoundErr)) = 204 ∧
    return_order_handler true true true true
      (.error (.DataError .WarehouseServiceAccessErr)) = 204 ∧
    return_order_handler true true true true
      (.error (.DataError .WarrantyServiceAccessErr)) = 204 ∧
    return_order_handler true true true true (.ok ()) = 204 :=
  ⟨rfl, rfl, rfl, rfl⟩

/-- Claim C10: get_service_status reports a peer as up exactly when the health
request completes with any response, whatever the status code; composed with
update_service_status, a peer whose health endpoint answers 500 closes the
circuit again once the cooldown has elapsed. -/
theorem health_probe_reachability_spec :
    (∀ code, get_service_status (some code) = true) ∧
    (get_service_status none = false) ∧
    (∀ t now cooldown code, cooldown ≤ now - t →
      update_service_status (some code) now cooldown ⟨false, t⟩ =
        (⟨true, now⟩, true)) := by
  refine ⟨fun code => rfl, rfl, ?_⟩
  intro t now cooldown code h
  simp [update_service_status, h, get_service_status, change_status]

/-- Witness for C10 at a concrete input: a peer answering 500 to the probe is
set back to up after the cooldown. -/
theorem health_probe_reachability_spec_witness :
    update_service_status (some 500) 100 60 ⟨false, 0⟩ = (⟨true, 100⟩, true) :=
  health_probe_reachability_spec.2.2 0 100 60 500 (by decide)

end OrderSvc

namespace WarrantySvc

/-- Claim C7: the warranty verdict is NotFoundErr when no row of the item_uid
exists, REFUSED when the stored status is not ON_WARRANTY whatever the count,
RETURN when the status is ON_WARRANTY and the count is positive, and FIXING
when the status is ON_WARRANTY and the count is zero, for every non-negative
available count. -/
theorem warranty_verdict_spec (db : List Warranty) (uid : Uuid) (n : Int)
    (hn : 0 ≤ n) :
    ((∀ w ∈ db, w.item_uid ≠ uid) →
      get_warranty_verdict db uid n = .error (.DataError .NotFoundErr)) ∧
    (∀ v, (load_id uid db).getLast? = some v →
      ((v.status ≠ "ON_WARRANTY" →
         get_warranty_verdict db uid n = .ok { obj := v, verdict := some "REFUSED" }) ∧
       (v.status = "ON_WARRANTY" → 0 < n →
         get_warranty_verdict db uid n = .ok { obj := v, verdict := some "RETURN" }) ∧
       (v.status = "ON_WARRANTY" → n = 0 →
         get_warranty_verdict db uid n = .ok { obj := v, verdict := some "FIXING" }))) := by
  constructor
  · intro h
    have hnil : load_id uid db = [] := by
      rw [load_id, List.filter_eq_nil_iff]
      intro w hw
      simpa using h w hw
    simp [get_warranty_verdict, hnil]
  · intro v hv
    refine ⟨?_, ?_, ?_⟩
    · intro h1
      simp [get_warranty_verdict, hv, h1]
    · intro h1 h2
      simp [get_warranty_verdict, hv, h1, h2]
    · intro h1 h2
      simp [get_warranty_verdict, hv, h1, h2]

/-- Witness for C7 at concrete inputs: an ON_WARRANTY row with three items in
stock yields RETURN. -/
theorem warranty_verdict_spec_witness :
    get_warranty_verdict [⟨1, none, 9, "ON_WARRANTY", 0⟩] 9 3 =
      .ok ⟨⟨1, none, 9, "ON_WARRANTY", 0⟩, some "RETURN"⟩ :=
  ((warranty_verdict_spec [⟨1, none, 9, "ON_WARRANTY", 0⟩] 9 3 (by decide)).2
    ⟨1, none, 9, "ON_WARRANTY", 0⟩ (by decide)).2.1 (by decide) (by decide)

end WarrantySvc

namespace OrderSvc

/-- A list of send outcomes that are all transport errors has no first
completed response. -/
theorem first_response_eq_none (l : List Attempt) (h : ∀ a ∈ l, a = none) :
    first_response l = none := by
  induction l with
  | nil => rfl
  | cons a rest ih =>
    have ha := h a (List.mem_cons_self a rest)
    subst ha
    exact ih (fun b hb => h b (List.mem_cons_of_mem none hb))

/-- Claim C5: for every outbound gateway call, when the peer is up and every
send attempt fails with a transport error, the result is the typed access
error of the peer and its entry becomes up=false, updated=now; every later
call made strictly less than the cooldown after that moment short-circuits
with the same access error, issuing neither a probe nor a request and leaving
the entry unchanged; and once the cooldown has elapsed a probe is issued and a
completed probe sets the entry back to up. -/
theorem gateway_circuit_breaker_spec {β : Type}
    (calloutNumber cooldown : Nat) (accessErr : DataError)
    (classify : Nat → Except ServiceAccessError β) :
    (∀ env s, s.up = true → 0 < calloutNumber →
      (∀ a ∈ env.attempts, a = none) →
      gateway_call calloutNumber cooldown accessErr classify env s =
        { res := .error (.DataError accessErr),
          service := { up := false, updated := env.now },
          probed := false, requested := true }) ∧
    (∀ env t, env.now - t < cooldown →
      gateway_call calloutNumber cooldown accessErr classify env ⟨false, t⟩ =
        { res := .error (.DataError accessErr), service := ⟨false, t⟩,
          probed := false, requested := false }) ∧
    (∀ (env : GatewayEnv) t code, cooldown ≤ env.now - t → env.probe = some code →
      update_service_status env.probe env.now cooldown ⟨false, t⟩ =
        (⟨true, env.now⟩, true)) := by
  refine ⟨?_, ?_, ?_⟩
  · intro env s hup hN hall
    have hfr : first_response (env.attempts.take calloutNumber) = none :=
      first_response_eq_none _ (fun a ha => hall a (List.take_subset _ _ ha))
    simp [gateway_call, update_service_status, hup, hfr, hN]
  · intro env t hlt
    have hnot : ¬ cooldown ≤ env.now - t := Nat.not_le.mpr hlt
    simp [gateway_call, update_service_status, hnot]
  · intro env t code hle hp
    simp [update_service_status, hle, hp, get_service_status, change_status]

/-- Witness for C5 at concrete inputs: four transport failures open the
circuit with updated=100, and a call thirty seconds later short-circuits
without probing or requesting. -/
theorem gateway_circuit_breaker_spec_witness :
    gateway_call 4 60 DataError.WarehouseServiceAccessErr classify_return
      ⟨none, [none, none, none, none], 100⟩ ⟨true, 0⟩ =
      ⟨.error (.DataError .WarehouseServiceAccessErr), ⟨false, 100⟩, false, true⟩ ∧
    gateway_call 4 60 DataError.WarehouseServiceAccessErr classify_return
      ⟨none, [], 130⟩ ⟨false, 100⟩ =
      ⟨.error (.DataError .WarehouseServiceAccessErr), ⟨false, 100⟩, false, false⟩ :=
  ⟨(gateway_circuit_breaker_spec 4 60 DataError.WarehouseServiceAccessErr
      classify_return).1 ⟨none, [none, none, none, none], 100⟩ ⟨true, 0⟩ rfl
      (by decide) (by decide),
   (gateway_circuit_breaker_spec 4 60 DataError.WarehouseServiceAccessErr
      classify_return).2.1 ⟨none, [], 130⟩ 100 (by decide)⟩

end OrderSvc

namespace StoreSvc

/-- The aggregated record of one order is always a success. -/
theorem get_solid_info_isOk (order : OrderInfoResponseJson)
    (itemRes : Except ServiceAccessError ItemJson)
    (warRes : Except ServiceAccessError WarrantyStatusResponseJson) :
    ∃ s, get_solid_info order itemRes warRes = .ok s := by
  cases itemRes <;> cases warRes <;> exact ⟨_, rfl⟩

/-- Aggregating any list of orders always succeeds. -/
theorem solid_infos_isOk
    (itemInfoOf : Uuid → Except ServiceAccessError ItemJson)
    (warrantyOf : Uuid → Except ServiceAccessError WarrantyStatusResponseJson) :
    ∀ l, ∃ r, solid_infos itemInfoOf warrantyOf l = .ok r := by
  intro l
  induction l with
  | nil => exact ⟨[], rfl⟩
  | cons o rest ih =>
    obtain ⟨s, hs⟩ := get_solid_info_isOk o (itemInfoOf o.item_uid) (warrantyOf o.item_uid)
    obtain ⟨r, hr⟩ := ih
    exact ⟨s :: r, by simp [solid_infos, hs, hr]⟩

/-- Claim C6: in the aggregated order view both dependency reads are
best-effort: a failing warehouse read leaves model and size unset, a failing
warranty read leaves the warranty fields unset, and get_solid_info always
succeeds; a successful read fills the corresponding fields. By contrast, a
failure of the store-to-order call fails get_orders_info with the mapped
order-access error, while a successful order call yields a success. -/
theorem store_aggregation_best_effort :
    (∀ (order : OrderInfoResponseJson) itemRes warRes,
      ∃ s, get_solid_info order itemRes warRes = .ok s ∧
        (∀ e, itemRes = .error e → s.model = none ∧ s.size = none) ∧
        (∀ v, itemRes = .ok v → s.model = some v.model ∧ s.size = some v.size) ∧
        (∀ e, warRes = .error e →
          s.warranty_date = none ∧ s.warranty_status = none) ∧
        (∀ v, warRes = .ok v →
          s.warranty_date = some v.warranty_date ∧
          s.warranty_status = some v.status)) ∧
    (∀ users user_uid ordersRes itemInfoOf warrantyOf u,
      (load_user_by_id users user_uid).getLast? = some u →
      ((∀ orders, ordersRes = .ok orders →
         ∃ l, get_orders_info users user_uid ordersRes itemInfoOf warrantyOf = .ok l) ∧
       (∀ e, ordersRes = .error e →
         get_orders_info users user_uid ordersRes itemInfoOf warrantyOf =
           .error (map_order_err e)))) := by
  constructor
  · intro order itemRes warRes
    cases itemRes with
    | ok vi =>
      cases warRes with
      | ok vw =>
        refine ⟨⟨order.order_uid, order.order_date, some vi.model, some vi.size,
          some vw.warranty_date, some vw.status⟩, rfl, ?_, ?_, ?_, ?_⟩
        · intro e he; cases he
        · intro v hv; cases hv; exact ⟨rfl, rfl⟩
        · intro e he; cases he
        · intro v hv; cases hv; exact ⟨rfl, rfl⟩
      | error ew =>
        refine ⟨⟨order.order_uid, order.order_date, some vi.model, some vi.size,
          none, none⟩, rfl, ?_, ?_, ?_, ?_⟩
        · intro e he; cases he
        · intro v hv; cases hv; exact ⟨rfl, rfl⟩
        · intro e he; exact ⟨rfl, rfl⟩
        · intro v hv; cases hv
    | error ei =>
      cases warRes with
      | ok vw =>
        refine ⟨⟨order.order_uid, order.order_date, none, none,
          some vw.warranty_date, some vw.status⟩, rfl, ?_, ?_, ?_, ?_⟩
        · intro e he; exact ⟨rfl, rfl⟩
        · intro v hv; cases hv
        · intro e he; cases he
        · intro v hv; cases hv; exact ⟨rfl, rfl⟩
      | error ew =>
        refine ⟨⟨order.order_uid, order.order_date, none, none, none, none⟩,
          rfl, ?_, ?_, ?_, ?_⟩
        · intro e he; exact ⟨rfl, rfl⟩
        · intro v hv; cases hv
        · intro e he; exact ⟨rfl, rfl⟩
        · intro v hv; cases hv
  · intro users user_uid ordersRes itemInfoOf warrantyOf u hu
    constructor
    · intro orders ho
      subst ho
      obtain ⟨r, hr⟩ := solid_infos_isOk itemInfoOf warrantyOf orders
      exact ⟨r, by simp [get_orders_info, verify_user, hu, hr]⟩
    · intro e he
      subst he
      simp [get_orders_info, verify_user, hu]

/-- Witness for C6 at concrete inputs: with the user present, a warehouse
success and a warranty failure produce a 200-style success whose record
carries model and size and omits the warranty fields, while a failing
store-to-order call fails with the order access error. -/
theorem store_aggregation_best_effort_witness :
    (∃ s, get_solid_info ⟨5, "d", 7, "PAID"⟩ (.ok ⟨"m", "s"⟩)
        (.error (.ReqwestError 0)) = .ok s ∧
      s.model = some "m" ∧ s.size = some "s" ∧
      s.warranty_date = none ∧ s.warranty_status = none) ∧
    get_orders_info [⟨1, "u", 4⟩] 4 (.error (.ReqwestError 0))
      (fun _ => .error (.ReqwestError 0)) (fun _ => .error (.ReqwestError 0)) =
      .error (.DataError .OrderServiceAccessErr) := by
  constructor
  · obtain ⟨s, hs, hi1, hi2, hw1, hw2⟩ :=
      store_aggregation_best_effort.1 ⟨5, "d", 7, "PAID"⟩ (.ok ⟨"m", "s"⟩)
        (.error (.ReqwestError 0))
    exact ⟨s, hs, (hi2 ⟨"m", "s"⟩ rfl).1, (hi2 ⟨"m", "s"⟩ rfl).2,
      (hw1 (.ReqwestError 0) rfl).1, (hw1 (.ReqwestError 0) rfl).2⟩
  · exact (store_aggregation_best_effort.2 [⟨1, "u", 4⟩] 4 (.error (.ReqwestError 0))
      (fun _ => .error (.ReqwestError 0)) (fun _ => .error (.ReqwestError 0))
      ⟨1, "u", 4⟩ (by decide)).2 (.ReqwestError 0) rfl

end StoreSvc

namespace OrderSvc

/-- Claim C1 counterexample: a purchase with no queue configured where the
stock reserve succeeds, warranty enrolment fails (a 500 answer, giving the
warranty access error) and the compensating warehouse release also fails (a
500 answer). The saga does reach the compensation, but the value returned to
the caller is the warehouse access error of the failed compensation, not the
original warranty error, refuting the claim that the warranty error is
surfaced regardless. -/
theorem create_order_compensation_failure_cex :
    (request_warranty_service_start 4 60 ⟨none, [some 500], 0⟩ 33
      ⟨true, 0⟩).res = .error (.DataError .WarrantyServiceAccessErr) ∧
    (create_order 4 60 11 0 22 ⟨"m", "s"⟩ ⟨none, [some 200], 0⟩
      (.ok ⟨33, 11, "m", "s"⟩) ⟨none, [some 500], 0⟩ none ⟨none, [some 500], 0⟩
      (.ok []) ⟨⟨true, 0⟩, ⟨true, 0⟩⟩).compensation_attempted = true ∧
    (create_order 4 60 11 0 22 ⟨"m", "s"⟩ ⟨none, [some 200], 0⟩
      (.ok ⟨33, 11, "m", "s"⟩) ⟨none, [some 500], 0⟩ none ⟨none, [some 500], 0⟩
      (.ok []) ⟨⟨true, 0⟩, ⟨true, 0⟩⟩).res =
      .error (.DataError .WarehouseServiceAccessErr) ∧
    (create_order 4 60 11 0 22 ⟨"m", "s"⟩ ⟨none, [some 200], 0⟩
      (.ok ⟨33, 11, "m", "s"⟩) ⟨none, [some 500], 0⟩ none ⟨none, [some 500], 0⟩
      (.ok []) ⟨⟨true, 0⟩, ⟨true, 0⟩⟩).res ≠
      .error (.DataError .WarrantyServiceAccessErr) := by
  refine ⟨rfl, rfl, rfl, ?_⟩
  decide

/-- Claim C1 (amended): in the purchase saga with no durable queue, when the
reserve succeeds and warranty enrolment fails, the saga always attempts the
compensating warehouse release; when the compensation succeeds the original
(mapped) warranty error is returned, but when the compensation call itself
fails the error returned is the mapped error of the compensation call, not the
warranty error. -/
theorem create_order_compensation_error_routing
    (calloutNumber cooldown : Nat) (order_uid : Uuid) (now : Nat)
    (user_uid : Uuid) (body : CreateOrderRequestJson) (reserveEnv : GatewayEnv)
    (reserveDecode : Except Nat WarehouseItemResponseJson)
    (warrantyEnv compEnv : GatewayEnv) (insertRes : Except Nat (List Order))
    (st : ServicesStatus) (resp : WarehouseItemResponseJson)
    (ew : ServiceAccessError)
    (hres : (request_warehouse_service_item calloutNumber cooldown reserveEnv
      reserveDecode ⟨order_uid, body.model, body.size⟩ st.warehouse_service).res =
      .ok resp)
    (hwar : (request_warranty_service_start calloutNumber cooldown warrantyEnv
      resp.order_item_uid st.warranty_service).res = .error ew) :
    (create_order calloutNumber cooldown order_uid now user_uid body reserveEnv
      reserveDecode warrantyEnv none compEnv insertRes st).compensation_attempted =
      true ∧
    ((request_warehouse_service_return calloutNumber cooldown compEnv
        resp.order_item_uid (request_warehouse_service_item calloutNumber cooldown
          reserveEnv reserveDecode ⟨order_uid, body.model, body.size⟩
          st.warehouse_service).service).res = .ok () →
      (create_order calloutNumber cooldown order_uid now user_uid body reserveEnv
        reserveDecode warrantyEnv none compEnv insertRes st).res =
        .error (map_warranty_err ew)) ∧
    (∀ ec, (request_warehouse_service_return calloutNumber cooldown compEnv
        resp.order_item_uid (request_warehouse_service_item calloutNumber cooldown
          reserveEnv reserveDecode ⟨order_uid, body.model, body.size⟩
          st.warehouse_service).service).res = .error ec →
      (create_order calloutNumber cooldown order_uid now user_uid body reserveEnv
        reserveDecode warrantyEnv none compEnv insertRes st).res =
        .error (map_warranty_err ec)) := by
  simp only [create_order]
  rw [hres]
  simp only []
  rw [hwar]
  cases hg3 : (request_warehouse_service_return calloutNumber cooldown compEnv
      resp.order_item_uid (request_warehouse_service_item calloutNumber cooldown
        reserveEnv reserveDecode ⟨order_uid, body.model, body.size⟩
        st.warehouse_service).service).res with
  | error e3 =>
    refine ⟨rfl, ?_, ?_⟩
    · intro hcomp; cases hcomp
    · intro ec hcomp
      injection hcomp with h2
      subst h2
      rfl
  | ok u =>
    refine ⟨rfl, ?_, ?_⟩
    · intro _; rfl
    · intro ec hcomp; cases hcomp

/-- Witness for the amended C1 at concrete inputs: with the compensation
answering 204 the warranty error is surfaced, and with the compensation
answering 500 the warehouse error of the compensation is surfaced. -/
theorem create_order_compensation_error_routing_witness :
    (create_order 4 60 11 0 22 ⟨"m", "s"⟩ ⟨none, [some 200], 0⟩
      (.ok ⟨33, 11, "m", "s"⟩) ⟨none, [some 500], 0⟩ none ⟨none, [some 204], 0⟩
      (.ok []) ⟨⟨true, 0⟩, ⟨true, 0⟩⟩).res =
      .error (.DataError .WarrantyServiceAccessErr) ∧
    (create_order 4 60 11 0 22 ⟨"m", "s"⟩ ⟨none, [some 200], 0⟩
      (.ok ⟨33, 11, "m", "s"⟩) ⟨none, [some 500], 0⟩ none ⟨none, [some 500], 0⟩
      (.ok []) ⟨⟨true, 0⟩, ⟨true, 0⟩⟩).res =
      .error (.DataError .WarehouseServiceAccessErr) := by
  constructor
  · exact (create_order_compensation_error_routing 4 60 11 0 22 ⟨"m", "s"⟩
      ⟨none, [some 200], 0⟩ (.ok ⟨33, 11, "m", "s"⟩) ⟨none, [some 500], 0⟩
      ⟨none, [some 204], 0⟩ (.ok []) ⟨⟨true, 0⟩, ⟨true, 0⟩⟩ ⟨33, 11, "m", "s"⟩
      (.DataError .WarrantyServiceAccessErr) (by decide) (by decide)).2.1
      (by decide)
  · exact (create_order_compensation_error_routing 4 60 11 0 22 ⟨"m", "s"⟩
      ⟨none, [some 200], 0⟩ (.ok ⟨33, 11, "m", "s"⟩) ⟨none, [some 500], 0⟩
      ⟨none, [some 500], 0⟩ (.ok []) ⟨⟨true, 0⟩, ⟨true, 0⟩⟩ ⟨33, 11, "m", "s"⟩
      (.DataError .WarrantyServiceAccessErr) (by decide) (by decide)).2.2
      (.DataError .WarehouseServiceAccessErr) (by decide)

/-- Every error produced by a gateway call is either the access error of the
peer or an error produced by the status-code classification. -/
theorem gateway_call_err_shape {β : Type} (calloutNumber cooldown : Nat)
    (accessErr : DataError) (classify : Nat → Except ServiceAccessError β)
    (env : GatewayEnv) (s : Service) (e : ServiceAccessError)
    (h : (gateway_call calloutNumber cooldown accessErr classify env s).res =
      .error e) :
    e = .DataError accessErr ∨ ∃ code, classify code = .error e := by
  simp only [gateway_call] at h
  split at h
  · simp only [Except.error.injEq] at h
    exact .inl h.symm
  · split at h
    · simp only [Except.error.injEq] at h
      exact .inl h.symm
    · rename_i code heq
      exact .inr ⟨code, h⟩

/-- Every error of the warranty stop call is the warranty access error. -/
theorem request_warranty_service_stop_err_shape
    (calloutNumber cooldown : Nat) (env : GatewayEnv) (uid : Uuid) (s : Service)
    (e : ServiceAccessError)
    (h : (request_warranty_service_stop calloutNumber cooldown env uid s).res =
      .error e) :
    e = .DataError .WarrantyServiceAccessErr := by
  rcases gateway_call_err_shape calloutNumber cooldown _ _ env s e h with h1 | ⟨code, hc⟩
  · exact h1
  · unfold classify_warranty_stop at hc
    split at hc
    · cases hc
    · simp only [Except.error.injEq] at hc
      exact hc.symm

/-- Claim C3: in the return saga, after the order row is found and the stock
release succeeds, a failing warranty close triggers the compensation: the item
info is fetched from the warehouse by order_item_uid and, when that succeeds,
the re-reserve request is built with the same order_uid and the model and size
just fetched; when the re-reserve succeeds the warranty access error is
surfaced, when the compensation fetch or the re-reserve fails the mapped error
of that warehouse call is surfaced instead, and in none of these failure cases
is the CANCELED status update reached. -/
theorem return_order_compensation_spec
    (calloutNumber cooldown : Nat) (vec : List Order) (order : Order)
    (releaseEnv stopEnv itemInfoEnv reserveEnv : GatewayEnv)
    (itemInfoDecode : Except Nat CreateOrderRequestJson)
    (reserveDecode : Except Nat WarehouseItemResponseJson)
    (updateRes : Except Nat Order) (order_uid : Uuid) (st : ServicesStatus)
    (hvec : vec.getLast? = some order) :
    (∀ e1, (request_warehouse_service_return calloutNumber cooldown releaseEnv
        order.item_uid st.warehouse_service).res = .error e1 →
      (return_order calloutNumber cooldown (.ok vec) releaseEnv stopEnv
        itemInfoEnv reserveEnv itemInfoDecode reserveDecode updateRes order_uid
        st).res = .error (map_warehouse_err e1) ∧
      (return_order calloutNumber cooldown (.ok vec) releaseEnv stopEnv
        itemInfoEnv reserveEnv itemInfoDecode reserveDecode updateRes order_uid
        st).update_attempted = false) ∧
    ((request_warehouse_service_return calloutNumber cooldown releaseEnv
        order.item_uid st.warehouse_service).res = .ok () →
      ∀ ew, (request_warranty_service_stop calloutNumber cooldown stopEnv
        order.item_uid st.warranty_service).res = .error ew →
      (∀ ei, (request_warehouse_service_item_info calloutNumber cooldown
          itemInfoEnv itemInfoDecode order.item_uid
          (request_warehouse_service_return calloutNumber cooldown releaseEnv
            order.item_uid st.warehouse_service).service).res = .error ei →
        (return_order calloutNumber cooldown (.ok vec) releaseEnv stopEnv
          itemInfoEnv reserveEnv itemInfoDecode reserveDecode updateRes order_uid
          st).res = .error (map_warehouse_err ei) ∧
        (return_order calloutNumber cooldown (.ok vec) releaseEnv stopEnv
          itemInfoEnv reserveEnv itemInfoDecode reserveDecode updateRes order_uid
          st).update_attempted = false) ∧
      (∀ info, (request_warehouse_service_item_info calloutNumber cooldown
          itemInfoEnv itemInfoDecode order.item_uid
          (request_warehouse_service_return calloutNumber cooldown releaseEnv
            order.item_uid st.warehouse_service).service).res = .ok info →
        (return_order calloutNumber cooldown (.ok vec) releaseEnv stopEnv
          itemInfoEnv reserveEnv itemInfoDecode reserveDecode updateRes order_uid
          st).compensation_req = some ⟨order_uid, info.model, info.size⟩ ∧
        (return_order calloutNumber cooldown (.ok vec) releaseEnv stopEnv
          itemInfoEnv reserveEnv itemInfoDecode reserveDecode updateRes order_uid
          st).update_attempted = false ∧
        (∀ u, (request_warehouse_service_item calloutNumber cooldown reserveEnv
            reserveDecode ⟨order_uid, info.model, info.size⟩
            (request_warehouse_service_item_info calloutNumber cooldown
              itemInfoEnv itemInfoDecode order.item_uid
              (request_warehouse_service_return calloutNumber cooldown releaseEnv
                order.item_uid st.warehouse_service).service).service).res =
            .ok u →
          (return_order calloutNumber cooldown (.ok vec) releaseEnv stopEnv
            itemInfoEnv reserveEnv itemInfoDecode reserveDecode updateRes
            order_uid st).res =
            .error (.DataError .WarrantyServiceAccessErr)) ∧
        (∀ ec, (request_warehouse_service_item calloutNumber cooldown reserveEnv
            reserveDecode ⟨order_uid, info.model, info.size⟩
            (request_warehouse_service_item_info calloutNumber cooldown
              itemInfoEnv itemInfoDecode order.item_uid
              (request_warehouse_service_return calloutNumber cooldown releaseEnv
                order.item_uid st.warehouse_service).service).service).res =
            .error ec →
          (return_order calloutNumber cooldown (.ok vec) releaseEnv stopEnv
            itemInfoEnv reserveEnv itemInfoDecode reserveDecode updateRes
            order_uid st).res = .error (map_warehouse_err ec)))) := by
  simp only [return_order, hvec]
  cases hA : (request_warehouse_service_return calloutNumber cooldown releaseEnv
      order.item_uid st.warehouse_service).res with
  | error e1 =>
    dsimp only
    refine ⟨?_, ?_⟩
    · intro e1' h
      injection h with h2
      subst h2
      exact ⟨rfl, rfl⟩
    · intro h; cases h
  | ok u0 =>
    dsimp only
    refine ⟨?_, ?_⟩
    · intro e1' h; cases h
    · intro _ ew hB
      rw [hB]
      dsimp only
      have hew := request_warranty_service_stop_err_shape calloutNumber cooldown
        stopEnv order.item_uid st.warranty_service ew hB
      cases hC : (request_warehouse_service_item_info calloutNumber cooldown
          itemInfoEnv itemInfoDecode order.item_uid
          (request_warehouse_service_return calloutNumber cooldown releaseEnv
            order.item_uid st.warehouse_service).service).res with
      | error ei =>
        dsimp only
        refine ⟨?_, ?_⟩
        · intro ei' h
          injection h with h2
          subst h2
          exact ⟨rfl, rfl⟩
        · intro info h; cases h
      | ok info0 =>
        dsimp only
        refine ⟨?_, ?_⟩
        · intro ei' h; cases h
        · intro info h
          injection h with h2
          subst h2
          cases hD : (request_warehouse_service_item calloutNumber cooldown
              reserveEnv reserveDecode ⟨order_uid, info0.model, info0.size⟩
              (request_warehouse_service_item_info calloutNumber cooldown
                itemInfoEnv itemInfoDecode order.item_uid
                (request_warehouse_service_return calloutNumber cooldown
                  releaseEnv order.item_uid
                  st.warehouse_service).service).service).res with
          | error ec =>
            dsimp only
            refine ⟨rfl, rfl, ?_, ?_⟩
            · intro u h; cases h
            · intro ec' h
              injection h with h2
              subst h2
              rfl
          | ok v0 =>
            dsimp only
            refine ⟨rfl, rfl, ?_, ?_⟩
            · intro u h
              subst hew
              rfl
            · intro ec' h; cases h

/-- Witness for C3 at concrete inputs: the release answers 204, the warranty
close answers 500, the compensation fetch answers 200 with model m and size s,
and the re-reserve answers 200; the saga re-reserves under the original
order_uid, surfaces the warranty access error and never reaches the CANCELED
update. -/
theorem return_order_compensation_spec_witness :
    (return_order 4 60 (.ok [⟨1, 33, 0, 11, "PAID", 22⟩]) ⟨none, [some 204], 0⟩
      ⟨none, [some 500], 0⟩ ⟨none, [some 200], 0⟩ ⟨none, [some 200], 0⟩
      (.ok ⟨"m", "s"⟩) (.ok ⟨33, 11, "m", "s"⟩)
      (.ok ⟨1, 33, 0, 11, "CANCELED", 22⟩) 11
      ⟨⟨true, 0⟩, ⟨true, 0⟩⟩).compensation_req = some ⟨11, "m", "s"⟩ ∧
    (return_order 4 60 (.ok [⟨1, 33, 0, 11, "PAID", 22⟩]) ⟨none, [some 204], 0⟩
      ⟨none, [some 500], 0⟩ ⟨none, [some 200], 0⟩ ⟨none, [some 200], 0⟩
      (.ok ⟨"m", "s"⟩) (.ok ⟨33, 11, "m", "s"⟩)
      (.ok ⟨1, 33, 0, 11, "CANCELED", 22⟩) 11
      ⟨⟨true, 0⟩, ⟨true, 0⟩⟩).update_attempted = false ∧
    (return_order 4 60 (.ok [⟨1, 33, 0, 11, "PAID", 22⟩]) ⟨none, [some 204], 0⟩
      ⟨none, [some 500], 0⟩ ⟨none, [some 200], 0⟩ ⟨none, [some 200], 0⟩
      (.ok ⟨"m", "s"⟩) (.ok ⟨33, 11, "m", "s"⟩)
      (.ok ⟨1, 33, 0, 11, "CANCELED", 22⟩) 11
      ⟨⟨true, 0⟩, ⟨true, 0⟩⟩).res =
      .error (.DataError .WarrantyServiceAccessErr) := by
  have h := (return_order_compensation_spec 4 60 [⟨1, 33, 0, 11, "PAID", 22⟩]
    ⟨1, 33, 0, 11, "PAID", 22⟩ ⟨none, [some 204], 0⟩ ⟨none, [some 500], 0⟩
    ⟨none, [some 200], 0⟩ ⟨none, [some 200], 0⟩ (.ok ⟨"m", "s"⟩)
    (.ok ⟨33, 11, "m", "s"⟩) (.ok ⟨1, 33, 0, 11, "CANCELED", 22⟩) 11
    ⟨⟨true, 0⟩, ⟨true, 0⟩⟩ (by decide)).2 (by decide)
    (.DataError .WarrantyServiceAccessErr) (by decide)
  have h2 := h.2 ⟨"m", "s"⟩ (by decide)
  exact ⟨h2.1, h2.2.1, h2.2.2.1 ⟨33, 11, "m", "s"⟩ (by decide)⟩

end OrderSvc

/-- A filter over a list none of whose elements satisfies the predicate is
empty. -/
theorem filter_eq_nil_of {α : Type} (p : α → Bool) (l : List α)
    (h : ∀ x ∈ l, p x = false) : l.filter p = [] := by
  rw [List.filter_eq_nil_iff]
  intro a ha
  simp [h a ha]

/-- A filter keeping exactly the distinguished middle element. -/
theorem filter_middle_single {α : Type} (p : α → Bool) (l1 l2 : List α) (a : α)
    (h1 : ∀ x ∈ l1, p x = false) (h2 : ∀ x ∈ l2, p x = false)
    (ha : p a = true) : (l1 ++ a :: l2).filter p = [a] := by
  rw [List.filter_append, filter_eq_nil_of p l1 h1,
    List.filter_cons_of_pos ha, filter_eq_nil_of p l2 h2]
  rfl

/-- Mapping a function that fixes every element of a list is the identity. -/
theorem map_eq_self_of {α : Type} (f : α → α) (l : List α)
    (h : ∀ x ∈ l, f x = x) : l.map f = l := by
  induction l with
  | nil => rfl
  | cons a t ih =>
    rw [List.map_cons, h a (List.mem_cons_self a t),
      ih (fun x hx => h x (List.mem_cons_of_mem a hx))]

/-- Mapping a function that fixes everything but the distinguished middle
element rewrites only that element. -/
theorem map_middle_update {α : Type} (f : α → α) (l1 l2 : List α) (a : α)
    (h1 : ∀ x ∈ l1, f x = x) (h2 : ∀ x ∈ l2, f x = x) :
    (l1 ++ a :: l2).map f = l1 ++ f a :: l2 := by
  rw [List.map_append, map_eq_self_of f l1 h1, List.map_cons,
    map_eq_self_of f l2 h2]

namespace WarehouseSvc

/-- One reserve against a database whose items table holds exactly one row
matching the model and size (at an id no other row shares) and whose
order_items table has no row of order_uid yet: the count decrements and a
fresh row carrying fresh_uid is inserted with canceled false. -/
theorem create_order_insert_case (l1 l2 : List Item) (item : Item)
    (rows : List OrderItem) (fuid order_uid : Uuid) (model size : String)
    (hm : item.model = model) (hs : item.size = size)
    (h1 : ∀ i ∈ l1, (i.model == model && i.size == size) = false)
    (h2 : ∀ i ∈ l2, (i.model == model && i.size == size) = false)
    (hid1 : ∀ i ∈ l1, (i.id == item.id) = false)
    (hid2 : ∀ i ∈ l2, (i.id == item.id) = false)
    (hrows : ∀ o ∈ rows, (o.order_uid == order_uid) = false)
    (hpos : 0 < item.available_count) :
    create_order ⟨l1 ++ item :: l2, rows⟩ fuid order_uid model size =
      .ok (⟨0, some false, fuid, order_uid, some item.id⟩,
        ⟨l1 ++ { item with available_count := item.available_count - 1 } :: l2,
         rows ++ [⟨0, some false, fuid, order_uid, some item.id⟩]⟩) := by
  have hload : load_item model size ⟨l1 ++ item :: l2, rows⟩ = [item] := by
    show ((l1 ++ item :: l2).filter (fun i => i.model == model)).filter
      (fun i => i.size == size) = [item]
    rw [List.filter_filter]
    exact filter_middle_single _ l1 l2 item
      (fun x hx => by rw [Bool.and_comm]; exact h1 x hx)
      (fun x hx => by rw [Bool.and_comm]; exact h2 x hx)
      (by simp [hm, hs])
  have hdec : decrement_count item =
      .ok { item with available_count := item.available_count - 1 } := by
    unfold decrement_count
    rw [if_neg (not_le.mpr hpos)]
  have hupd : update_item { item with available_count := item.available_count - 1 }
      ⟨l1 ++ item :: l2, rows⟩ =
      ⟨l1 ++ { item with available_count := item.available_count - 1 } :: l2,
       rows⟩ := by
    show (⟨(l1 ++ item :: l2).map _, rows⟩ : WarehouseDb) = _
    rw [map_middle_update _ l1 l2 item
      (fun x hx => by simp [hid1 x hx])
      (fun x hx => by simp [hid2 x hx])]
    simp
  have hnorow : load_order_uid order_uid
      ⟨l1 ++ { item with available_count := item.available_count - 1 } :: l2,
       rows⟩ = [] :=
    filter_eq_nil_of _ rows hrows
  simp only [create_order, hload, List.getLast?_singleton, hdec, hupd, hnorow]
  rfl

/-- One reserve against a database whose items table holds exactly one row
matching the model and size and whose order_items table already filters to
exactly one row of order_uid: the count decrements and the canceled flag of
every row of order_uid is set back to false; the row popped from the earlier
load is returned. -/
theorem create_order_update_case (l1 l2 : List Item) (item : Item)
    (rows : List OrderItem) (r : OrderItem) (fuid order_uid : Uuid)
    (model size : String)
    (hm : item.model = model) (hs : item.size = size)
    (h1 : ∀ i ∈ l1, (i.model == model && i.size == size) = false)
    (h2 : ∀ i ∈ l2, (i.model == model && i.size == size) = false)
    (hid1 : ∀ i ∈ l1, (i.id == item.id) = false)
    (hid2 : ∀ i ∈ l2, (i.id == item.id) = false)
    (hfilter : rows.filter (fun o => o.order_uid == order_uid) = [r])
    (hpos : 0 < item.available_count) :
    create_order ⟨l1 ++ item :: l2, rows⟩ fuid order_uid model size =
      .ok (r,
        ⟨l1 ++ { item with available_count := item.available_count - 1 } :: l2,
         rows.map (fun o => if o.order_uid == order_uid then
           { o with canceled := some false } else o)⟩) := by
  have hload : load_item model size ⟨l1 ++ item :: l2, rows⟩ = [item] := by
    show ((l1 ++ item :: l2).filter (fun i => i.model == model)).filter
      (fun i => i.size == size) = [item]
    rw [List.filter_filter]
    exact filter_middle_single _ l1 l2 item
      (fun x hx => by rw [Bool.and_comm]; exact h1 x hx)
      (fun x hx => by rw [Bool.and_comm]; exact h2 x hx)
      (by simp [hm, hs])
  have hdec : decrement_count item =
      .ok { item with available_count := item.available_count - 1 } := by
    unfold decrement_count
    rw [if_neg (not_le.mpr hpos)]
  have hupd : update_item { item with available_count := item.available_count - 1 }
      ⟨l1 ++ item :: l2, rows⟩ =
      ⟨l1 ++ { item with available_count := item.available_count - 1 } :: l2,
       rows⟩ := by
    show (⟨(l1 ++ item :: l2).map _, rows⟩ : WarehouseDb) = _
    rw [map_middle_update _ l1 l2 item
      (fun x hx => by simp [hid1 x hx])
      (fun x hx => by simp [hid2 x hx])]
    simp
  have hrow : load_order_uid order_uid
      ⟨l1 ++ { item with available_count := item.available_count - 1 } :: l2,
       rows⟩ = [r] := hfilter
  simp only [create_order, hload, List.getLast?_singleton, hdec, hupd, hrow]
  rfl

/-- After k+1 successive reserves with the same order_uid against a database
holding exactly one matching item with enough stock and no prior row of
order_uid, the count has dropped by k+1 and the order_items table carries the
single fresh row of the first reserve, still with canceled false. -/
theorem iterate_reserve_spec (l1 l2 : List Item) (item : Item)
    (rows : List OrderItem) (order_uid : Uuid) (model size : String)
    (fresh : Nat → Uuid)
    (hm : item.model = model) (hs : item.size = size)
    (h1 : ∀ i ∈ l1, (i.model == model && i.size == size) = false)
    (h2 : ∀ i ∈ l2, (i.model == model && i.size == size) = false)
    (hid1 : ∀ i ∈ l1, (i.id == item.id) = false)
    (hid2 : ∀ i ∈ l2, (i.id == item.id) = false)
    (hrows : ∀ o ∈ rows, (o.order_uid == order_uid) = false) :
    ∀ k : Nat, (k : Int) + 1 ≤ item.available_count →
    iterate_reserve order_uid model size fresh (k + 1) ⟨l1 ++ item :: l2, rows⟩ =
      .ok ⟨l1 ++ { item with available_count :=
              item.available_count - ((k : Int) + 1) } :: l2,
        rows ++ [⟨0, some false, fresh 0, order_uid, some item.id⟩]⟩ := by
  intro k
  induction k with
  | zero =>
    intro hc
    have hpos : 0 < item.available_count := by omega
    simp only [iterate_reserve]
    rw [create_order_insert_case l1 l2 item rows (fresh 0) order_uid model size
      hm hs h1 h2 hid1 hid2 hrows hpos]
    norm_num
  | succ n ih =>
    intro hc
    have hn1 : (n : Int) + 1 ≤ item.available_count := by push_cast at hc ⊢; omega
    have hpos : 0 < item.available_count - ((n : Int) + 1) := by
      push_cast at hc; omega
    rw [iterate_reserve, ih hn1]
    dsimp only
    have hfilter : (rows ++ [(⟨0, some false, fresh 0, order_uid, some item.id⟩ :
        OrderItem)]).filter (fun o => o.order_uid == order_uid) =
        [⟨0, some false, fresh 0, order_uid, some item.id⟩] := by
      rw [List.filter_append, filter_eq_nil_of _ rows hrows]
      simp
    have hstep := create_order_update_case l1 l2
      { item with available_count := item.available_count - ((n : Int) + 1) }
      (rows ++ [⟨0, some false, fresh 0, order_uid, some item.id⟩])
      ⟨0, some false, fresh 0, order_uid, some item.id⟩
      (fresh (n + 1)) order_uid model size hm hs h1 h2 hid1 hid2 hfilter hpos
    rw [hstep]
    have hmap : (rows ++ [(⟨0, some false, fresh 0, order_uid, some item.id⟩ :
        OrderItem)]).map (fun o => if o.order_uid == order_uid then
          { o with canceled := some false } else o) =
        rows ++ [⟨0, some false, fresh 0, order_uid, some item.id⟩] := by
      rw [List.map_append, map_eq_self_of _ rows (fun o ho => by simp [hrows o ho])]
      simp
    rw [hmap]
    dsimp only
    have harith : item.available_count - ((n : Int) + 1) - 1 =
        item.available_count - (((n + 1 : Nat) : Int) + 1) := by
      push_cast
      ring
    rw [harith]

/-- Claim C4: warehouse reserve is idempotent per order_uid: against a database
holding exactly one item matching the model and size, with stock for N reserves
and no prior order_items row of order_uid, N successive successful reserves
decrement the count N times while producing exactly one order_items row of
order_uid: the first reserve inserts it with the fresh order_item_uid and each
later reserve only resets its canceled flag to false, so the table grows by one
row in total and the final row has canceled false. -/
theorem warehouse_reserve_idempotent (l1 l2 : List Item) (item : Item)
    (rows : List OrderItem) (order_uid : Uuid) (model size : String)
    (fresh : Nat → Uuid) (N : Nat)
    (hm : item.model = model) (hs : item.size = size)
    (h1 : ∀ i ∈ l1, (i.model == model && i.size == size) = false)
    (h2 : ∀ i ∈ l2, (i.model == model && i.size == size) = false)
    (hid1 : ∀ i ∈ l1, (i.id == item.id) = false)
    (hid2 : ∀ i ∈ l2, (i.id == item.id) = false)
    (hrows : ∀ o ∈ rows, (o.order_uid == order_uid) = false)
    (hN : 0 < N) (hstock : (N : Int) ≤ item.available_count) :
    iterate_reserve order_uid model size fresh N ⟨l1 ++ item :: l2, rows⟩ =
      .ok ⟨l1 ++ { item with available_count :=
            item.available_count - (N : Int) } :: l2,
        rows ++ [⟨0, some false, fresh 0, order_uid, some item.id⟩]⟩ ∧
    load_order_uid order_uid
      ⟨l1 ++ { item with available_count :=
            item.available_count - (N : Int) } :: l2,
        rows ++ [⟨0, some false, fresh 0, order_uid, some item.id⟩]⟩ =
      [⟨0, some false, fresh 0, order_uid, some item.id⟩] ∧
    load_item model size
      ⟨l1 ++ { item with available_count :=
            item.available_count - (N : Int) } :: l2,
        rows ++ [⟨0, some false, fresh 0, order_uid, some item.id⟩]⟩ =
      [{ item with available_count := item.available_count - (N : Int) }] ∧
    (rows ++ [(⟨0, some false, fresh 0, order_uid, some item.id⟩ :
      OrderItem)]).length = rows.length + 1 := by
  obtain ⟨k, rfl⟩ : ∃ k, N = k + 1 := ⟨N - 1, by omega⟩
  refine ⟨?_, ?_, ?_, ?_⟩
  · have h := iterate_reserve_spec l1 l2 item rows order_uid model size fresh
      hm hs h1 h2 hid1 hid2 hrows k (by push_cast at hstock ⊢; omega)
    have harith : item.available_count - ((k : Int) + 1) =
        item.available_count - (((k + 1 : Nat) : Int)) := by
      push_cast
      ring
    rw [harith] at h
    exact h
  · show List.filter _ _ = _
    rw [List.filter_append, filter_eq_nil_of _ rows hrows]
    simp
  · show List.filter _ (List.filter _ _) = _
    rw [List.filter_filter]
    exact filter_middle_single _ l1 l2 _
      (fun x hx => by rw [Bool.and_comm]; exact h1 x hx)
      (fun x hx => by rw [Bool.and_comm]; exact h2 x hx)
      (by simp [hm, hs])
  · simp

/-- Witness for C4 at concrete inputs: two reserves under order_uid 5 against
one item with two in stock leave the count at zero and exactly one order_items
row, canceled false. -/
theorem warehouse_reserve_idempotent_witness :
    iterate_reserve 5 "m" "s" (fun _ => 7) 2 ⟨[⟨1, 2, "m", "s"⟩], []⟩ =
      .ok ⟨[⟨1, 0, "m", "s"⟩], [⟨0, some false, 7, 5, some 1⟩]⟩ ∧
    load_order_uid 5 ⟨[⟨1, 0, "m", "s"⟩], [⟨0, some false, 7, 5, some 1⟩]⟩ =
      [⟨0, some false, 7, 5, some 1⟩] := by
  have h := warehouse_reserve_idempotent [] [] ⟨1, 2, "m", "s"⟩ [] 5 "m" "s"
    (fun _ => 7) 2 rfl rfl (by simp) (by simp) (by simp) (by simp) (by simp)
    (by decide) (by decide)
  exact ⟨h.1, h.2.1⟩

/-- Claim C8: the stock count never becomes negative and is mutated only by
the reserve decrement and the release increment. With a non-negative count, a
decrement either fails with ItemIsNotAvailableErr when the count is zero,
leaving the item unchanged, or lowers the count by exactly one, and any
successful decrement keeps the count non-negative. A release on an existing
order_items row with a valid item reference succeeds, sets canceled true on
the rows of that order and raises the referenced item count by exactly one,
preserving non-negativity of every count. -/
theorem warehouse_stock_safety :
    (∀ it : Item, 0 ≤ it.available_count →
      ((it.available_count = 0 →
        decrement_count it = .error (.DataError .ItemIsNotAvailableErr)) ∧
       (0 < it.available_count →
        decrement_count it =
          .ok { it with available_count := it.available_count - 1 }) ∧
       (∀ it2, decrement_count it = .ok it2 → 0 ≤ it2.available_count))) ∧
    (∀ (db : WarehouseDb) (uid : Uuid) (ord : OrderItem) (iid : Int) (itm : Item),
      (load_order_item_uid uid db).getLast? = some ord →
      ord.item_id = some iid →
      (load_item_id iid db).getLast? = some itm →
      ∃ db2, cancel_order db uid = some (.ok db2) ∧
        db2.order_items = db.order_items.map (fun o =>
          if o.order_uid == ord.order_uid then { o with canceled := some true }
          else o) ∧
        db2.items = db.items.map (fun i =>
          if i.id == itm.id then
            { itm with available_count := itm.available_count + 1 } else i) ∧
        ((∀ i ∈ db.items, 0 ≤ i.available_count) →
          ∀ i ∈ db2.items, 0 ≤ i.available_count)) := by
  constructor
  · intro it h0
    refine ⟨?_, ?_, ?_⟩
    · intro hz
      unfold decrement_count
      rw [if_pos (by omega)]
    · intro hp
      unfold decrement_count
      rw [if_neg (not_le.mpr hp)]
    · intro it2 h
      unfold decrement_count at h
      split at h
      · cases h
      · rename_i hgt
        injection h with h2
        rw [← h2]
        dsimp only
        omega
  · intro db uid ord iid itm h1 h2 h3
    refine ⟨update_item (increment_count itm)
      (update_order_status ord.order_uid true db), ?_, rfl, rfl, ?_⟩
    · unfold cancel_order
      rw [h1]
      dsimp only
      rw [h2]
      dsimp only
      dsimp only [load_item_id, update_order_status] at h3 ⊢
      rw [h3]
    · intro hnn i hi
      have hitems : (update_item (increment_count itm)
          (update_order_status ord.order_uid true db)).items =
          db.items.map (fun i => if i.id == itm.id then
            { itm with available_count := itm.available_count + 1 } else i) := rfl
      rw [hitems] at hi
      rcases List.mem_map.mp hi with ⟨a, ha, rfl⟩
      have hitm : itm ∈ db.items :=
        List.mem_of_mem_filter (List.mem_of_mem_getLast? h3)
      by_cases hcase : (a.id == itm.id) = true
      · simp only [hcase, if_true]
        have hn := hnn itm hitm
        show 0 ≤ itm.available_count + 1
        omega
      · simp only [Bool.not_eq_true] at hcase
        simp only [hcase, Bool.false_eq_true, if_false]
        exact hnn a ha

/-- Witness for C8 at concrete inputs: decrementing an item with zero stock
fails, and releasing the single reservation of an item raises its count from
zero to one and cancels the row. -/
theorem warehouse_stock_safety_witness :
    decrement_count ⟨1, 0, "m", "s"⟩ =
      .error (.DataError .ItemIsNotAvailableErr) ∧
    ∃ db2, cancel_order ⟨[⟨1, 0, "m", "s"⟩], [⟨0, some false, 7, 5, some 1⟩]⟩ 7 =
        some (.ok db2) ∧
      db2.order_items = [⟨0, some true, 7, 5, some 1⟩] ∧
      db2.items = [⟨1, 1, "m", "s"⟩] := by
  obtain ⟨db2, hc, ho, hi, hp⟩ := warehouse_stock_safety.2
    ⟨[⟨1, 0, "m", "s"⟩], [⟨0, some false, 7, 5, some 1⟩]⟩ 7
    ⟨0, some false, 7, 5, some 1⟩ 1 ⟨1, 0, "m", "s"⟩ (by decide) rfl (by decide)
  refine ⟨(warehouse_stock_safety.1 ⟨1, 0, "m", "s"⟩ (by decide)).1 rfl,
    db2, hc, ?_, ?_⟩
  · rw [ho]
    decide
  · rw [hi]
    decide

end WarehouseSvc

end StoreMS
